import Mathlib

/-!
Verification of the Area-of-Interest map widget (`src/src/map.js`, with the
`src/unnamed/part_001` revision where noted) against its specification.

The widget is a React component over OpenLayers.  Its state variables become
fields of `WidgetState`; each handler / effect of the component becomes a pure
state-transition function.  Network calls are modelled by passing the response
outcome as an explicit argument to the transition that awaits it.  User-visible
side effects (HTTP posts, toast errors, removal of the draw interaction) are
recorded in an event log so that their number and order can be reasoned about.
-/

/-- The two base tile layers: Google satellite or OSM street tiles. -/
inductive BaseLayer
  | google
  | osm
deriving DecidableEq, Repr

/-- GeoJSON geometry kinds distinguished by `fetchGeoJSONData` in map.js. -/
inductive GeomType
  | polygon
  | multiPolygon
  | other
deriving DecidableEq, Repr

/-- The `properties` object of a response feature: it may carry a `class_no`
field and/or a `class` field (`none` models an absent / `undefined` field). -/
structure FeatProps where
  class_no : Option Int
  «class» : Option Int
deriving DecidableEq, Repr

/-- A feature of the fetch-endpoint response body. -/
structure SrcFeature where
  geomType : GeomType
  props : FeatProps
deriving DecidableEq, Repr

/-- An OpenLayers feature built by the render loop: geometry plus the style's
fill color (`none` models an `undefined` color from a failed lookup). -/
structure OlFeature where
  geomType : GeomType
  props : FeatProps
  fillColor : Option String
deriving DecidableEq, Repr

/-- The GeoJSON polygon emitted at `drawend` (one closed lon/lat ring). -/
structure GeoJSON where
  ring : List (Int × Int)
deriving DecidableEq, Repr

/-- The result of `parseISO` on an ISO date string. -/
structure ParsedDate where
  iso : String
deriving DecidableEq, Repr

/-- `parseISO` from date-fns, kept abstract: it wraps the ISO string. -/
def parseISO (s : String) : ParsedDate := ⟨s⟩

/-- What sits on the overlay vector source: a drawn shape (added by the Draw
interaction at drawend) or a result feature (added by `addFeatures`; the
`Option` models the `undefined` array entries produced for geometry kinds
other than Polygon / MultiPolygon). -/
inductive OverlayItem
  | drawn (g : GeoJSON)
  | result (f : Option OlFeature)
deriving DecidableEq, Repr

/-- The map object: base tile layer plus the overlay vector source (the layer
at index 1 of the layer array). -/
structure MapSurface where
  base : BaseLayer
  overlay : List OverlayItem
deriving DecidableEq, Repr

/-- Observable side effects, recorded in issue order. -/
inductive Event
  | removeDraw
  | httpPost
  | toastError
  | setDates
deriving DecidableEq, Repr

/-- The React state of `MapComponent` in map.js, plus the event log. -/
structure WidgetState where
  map : Option MapSurface
  draw : Bool
  geoJSONFeatures : List (Option OlFeature)
  drawnGeoJSON : Option GeoJSON
  selectedIndex : String
  selectedDate : Option String
  availableDates : List ParsedDate
  cloudCover : Int
  fetchDataRequired : Bool
  loading : Bool
  loadingDates : Bool
  baseLayer : BaseLayer
  legendColors : List (Option Int × String)
  log : List Event
deriving DecidableEq, Repr

/-- JS truthiness of the `selectedDate` state (null and `""` are falsy). -/
def truthy : Option String → Bool
  | none => false
  | some str => str ≠ ""

/-- The overlay feature collection of the current map, when a map exists. -/
def overlayOf (s : WidgetState) : Option (List OverlayItem) :=
  s.map.map (fun m => m.overlay)

/-- Number of `toast.error` calls recorded in a log. -/
def toastCount (l : List Event) : Nat :=
  (l.filter (fun e => e = Event.toastError)).length

/-- Number of HTTP posts recorded in a log. -/
def httpPostCount (l : List Event) : Nat :=
  (l.filter (fun e => e = Event.httpPost)).length

/-- The fixed green palette of `generateColorMapping` in map.js. -/
def colors : List String :=
  ["#00ff00", "#00e600", "#00cc00", "#00b300",
   "#009900", "#007a00", "#006600", "#004d00"]

/-- `[...new Set(xs)]`: deduplication keeping first-encountered order
(JS `Set` iterates in insertion order). -/
def setDedup {α : Type} [DecidableEq α] (xs : List α) : List α :=
  xs.foldl (fun acc x => if x ∈ acc then acc else acc ++ [x]) []

/-- `generateColorMapping` from map.js: each class in `classes` is mapped, by
its position `index` in the array, to `colors[index % colors.length]`.  The
class values are arbitrary (JS is untyped), so the key type is a parameter. -/
def generateColorMapping {α : Type} (classes : List α) : List (α × String) :=
  classes.enum.map (fun p => (p.2, colors.getD (p.1 % colors.length) ""))

/-- JS object lookup `mapping[k]` on the assoc list built by
`generateColorMapping` (first binding wins; absent key gives `undefined`). -/
def lookupColor {α : Type} [DecidableEq α] (mapping : List (α × String)) (k : α) :
    Option String :=
  (mapping.find? (fun p => p.1 = k)).map (fun p => p.2)

/-- The body of the `features.map` callback in map.js `fetchGeoJSONData`:
Polygon and MultiPolygon features become styled OpenLayers features whose fill
color is `colorMapping[feature.properties.class_no]`; any other geometry kind
falls through the if/else chain and the callback returns `undefined`. -/
def renderFeature (colorMapping : List (Option Int × String)) (f : SrcFeature) :
    Option OlFeature :=
  match f.geomType with
  | GeomType.polygon =>
      some ⟨GeomType.polygon, f.props, lookupColor colorMapping f.props.class_no⟩
  | GeomType.multiPolygon =>
      some ⟨GeomType.multiPolygon, f.props, lookupColor colorMapping f.props.class_no⟩
  | GeomType.other => none

/-- The JS condition `selectedIndex && selectedDate && drawnGeoJSON` used by
both `handleFetchData` and the guard inside `fetchGeoJSONData`. -/
def fetchInputsPresent (s : WidgetState) : Bool :=
  (s.selectedIndex ≠ "") && truthy s.selectedDate && s.drawnGeoJSON.isSome

/-- The map built by the `[baseLayer]` effect: the requested base layer plus a
freshly constructed (hence empty) overlay `VectorSource`. -/
def initialMapSurface (bl : BaseLayer) : MapSurface :=
  { base := bl, overlay := [] }

/-- The `[baseLayer]` effect of map.js: tears down the previous map object and
builds a new one from scratch for the current `baseLayer` state. -/
def runBaseLayerEffect (s : WidgetState) : WidgetState :=
  { s with map := some (initialMapSurface s.baseLayer) }

/-- `toggleBaseLayer` from map.js: flips the `baseLayer` state. -/
def toggleBaseLayer (s : WidgetState) : WidgetState :=
  { s with baseLayer := if s.baseLayer = BaseLayer.google then BaseLayer.osm else BaseLayer.google }

/-- Pressing the toggle button and letting the `[baseLayer]` effect run. -/
def toggleBaseLayerRebuild (s : WidgetState) : WidgetState :=
  runBaseLayerEffect (toggleBaseLayer s)

/-- `addDrawInteraction` from map.js: attaches a polygon Draw interaction when
the map exists, otherwise does nothing. -/
def addDrawInteraction (s : WidgetState) : WidgetState :=
  if s.map.isSome then { s with draw := true } else s

/-- `removeDrawInteraction` from map.js: detaches the interaction when map and
interaction both exist, otherwise does nothing. -/
def removeDrawInteraction (s : WidgetState) : WidgetState :=
  if s.map.isSome && s.draw then
    { s with draw := false, log := s.log ++ [Event.removeDraw] }
  else s

/-- Empty the overlay source (`vectorLayer.getSource().clear()`). -/
def clearOverlay : Option MapSurface → Option MapSurface
  | none => none
  | some m => some { m with overlay := [] }

/-- `clearDrawnFeatures` from map.js: when the map exists, clears the overlay
source and resets `drawnGeoJSON`, `availableDates`, `fetchDataRequired`,
`geoJSONFeatures` and `legendColors`. -/
def clearDrawnFeatures (s : WidgetState) : WidgetState :=
  if s.map.isSome then
    { s with map := clearOverlay s.map, drawnGeoJSON := none, availableDates := [],
             fetchDataRequired := false, geoJSONFeatures := [], legendColors := [] }
  else s

/-- The part of `fetchAvailableDates` that runs before the await: sets the
dates-loading flag and issues the availability POST. -/
def issueAvailabilityRequest (s : WidgetState) : WidgetState :=
  { s with loadingDates := true, log := s.log ++ [Event.httpPost] }

/-- The continuation of `fetchAvailableDates` when its response arrives: on
success `setAvailableDates(dates.map(parseISO))` (unconditionally — there is no
request sequence number), on failure a toast error; either way the finally
block resets the dates-loading flag. -/
def availabilityResponseArrives (s : WidgetState) (resp : Except Unit (List String)) :
    WidgetState :=
  let s1 := match resp with
    | Except.ok dates =>
        { s with availableDates := dates.map parseISO, log := s.log ++ [Event.setDates] }
    | Except.error _ => { s with log := s.log ++ [Event.toastError] }
  { s1 with loadingDates := false }

/-- `fetchAvailableDates` from map.js, run to completion with outcome `resp`. -/
def fetchAvailableDates (s : WidgetState) (resp : Except Unit (List String)) : WidgetState :=
  availabilityResponseArrives (issueAvailabilityRequest s) resp

/-- `handleCloudCoverChange`: stores the new threshold. -/
def handleCloudCoverChange (s : WidgetState) (v : Int) : WidgetState :=
  { s with cloudCover := v }

/-- The `[cloudCover]` effect of map.js: refreshes the available dates if and
only if a drawn GeoJSON exists. -/
def runCloudCoverEffect (s : WidgetState) (resp : Except Unit (List String)) : WidgetState :=
  if s.drawnGeoJSON.isSome then fetchAvailableDates s resp else s

/-- Changing the cloud-cover input and letting the `[cloudCover]` effect run. -/
def changeCloudCover (s : WidgetState) (v : Int) (resp : Except Unit (List String)) :
    WidgetState :=
  runCloudCoverEffect (handleCloudCoverChange s v) resp

/-- Append one item to the overlay source of the current map. -/
def addOverlayItem (m : Option MapSurface) (it : OverlayItem) : Option MapSurface :=
  m.map (fun ms => { ms with overlay := ms.overlay ++ [it] })

/-- The `drawend` handler of map.js (the Draw interaction has already added the
drawn feature to the overlay source): converts the ring to lon/lat, stores it
as `drawnGeoJSON`, and calls `fetchAvailableDates` with outcome `resp`. -/
def drawEnd (s : WidgetState) (g : GeoJSON) (resp : Except Unit (List String)) : WidgetState :=
  let s1 := { s with map := addOverlayItem s.map (OverlayItem.drawn g),
                     drawnGeoJSON := some g }
  fetchAvailableDates s1 resp

/-- The body of the fetch-endpoint response (`response.data`); `features :=
none` models a payload with no `features` field. -/
structure RespData where
  features : Option (List SrcFeature)
deriving DecidableEq, Repr

/-- Outcome of the fetch POST: the request threw (network error / non-success
status), or it resolved with a body. -/
inductive FetchResp
  | netError
  | ok (data : RespData)
deriving DecidableEq, Repr

/-- `getSource().addFeatures(olFeatures)`: appends the rendered batch to the
overlay source (nothing is cleared first). -/
def addResultFeatures (m : Option MapSurface) (fs : List (Option OlFeature)) :
    Option MapSurface :=
  m.map (fun ms => { ms with overlay := ms.overlay ++ fs.map OverlayItem.result })

/-- `fetchGeoJSONData` from map.js, run to completion with outcome `resp`:
sets the loading flag; returns early when an input is missing; otherwise stops
any active draw session, issues the POST, and on a well-formed response builds
the legend mapping (`setLegendColors`), renders the batch
(`setGeoJSONFeatures`) and appends it to the overlay source.  A network error,
or a payload without `features` (which makes `features.map` throw), lands in
the catch block: one toast error, nothing else changed.  The finally block
always resets `loading` and `fetchDataRequired`. -/
def fetchGeoJSONData (s : WidgetState) (resp : FetchResp) : WidgetState :=
  let s0 := { s with loading := true }
  let s1 :=
    if fetchInputsPresent s then
      let sA := removeDrawInteraction s0
      let sB := { sA with log := sA.log ++ [Event.httpPost] }
      match resp with
      | FetchResp.netError => { sB with log := sB.log ++ [Event.toastError] }
      | FetchResp.ok data =>
        match data.features with
        | none => { sB with log := sB.log ++ [Event.toastError] }
        | some features =>
          let classes := setDedup (features.map (fun f => f.props.class_no))
          let colorMapping := generateColorMapping classes
          let sC := { sB with legendColors := colorMapping }
          let olFeatures := features.map (renderFeature colorMapping)
          let sD := { sC with geoJSONFeatures := olFeatures }
          match sD.map with
          | some _ => { sD with map := addResultFeatures sD.map olFeatures }
          | none => { sD with log := sD.log ++ [Event.toastError] }
    else s0
  { s1 with loading := false, fetchDataRequired := false }

/-- `handleFetchData` from map.js: validates the three inputs; when present,
requests a fetch via the `fetchDataRequired` flag, otherwise raises a toast
validation error. -/
def handleFetchData (s : WidgetState) : WidgetState :=
  if fetchInputsPresent s then { s with fetchDataRequired := true }
  else { s with log := s.log ++ [Event.toastError] }

/-- Pressing the Fetch Data button: `handleFetchData`, then the
`[fetchDataRequired, map]` effect, which runs `fetchGeoJSONData` when the flag
just transitioned to true and the map exists. -/
def pressFetchData (s : WidgetState) (resp : FetchResp) : WidgetState :=
  let s1 := handleFetchData s
  if s1.fetchDataRequired && !s.fetchDataRequired && s1.map.isSome then
    fetchGeoJSONData s1 resp
  else s1

namespace Part001

/-- The fixed 12-color palette of `generateColorMapping` in the
`src/unnamed/part_001` revision. -/
def colors : List String :=
  ["#ff0000", "#00ff00", "#0000ff", "#ffff00",
   "#ff00ff", "#00ffff", "#800000", "#808000",
   "#800080", "#008080", "#000080", "#808080"]

/-- `generateColorMapping` from part_001: same position-cyclic policy as in
map.js, over the 12-color palette. -/
def generateColorMapping {α : Type} (classes : List α) : List (α × String) :=
  classes.enum.map (fun p => (p.2, colors.getD (p.1 % colors.length) ""))

/-- The body of the `features.map` callback in part_001 `fetchGeoJSONData`:
every feature is rendered as a Polygon, and the fill color is looked up as
`colorMapping[feature.properties.class]` — while the mapping itself was keyed
by `class_no` values. -/
def renderFeature (colorMapping : List (Option Int × String)) (f : SrcFeature) :
    OlFeature :=
  ⟨GeomType.polygon, f.props, lookupColor colorMapping f.props.«class»⟩

/-- The success path of part_001 `fetchGeoJSONData` after the response
arrives: dedupe the `class_no` values in first-encountered order, build the
legend mapping from them, and render every feature.  Returns the legend
mapping together with the rendered batch. -/
def processResponse (features : List SrcFeature) :
    List (Option Int × String) × List OlFeature :=
  let classes := setDedup (features.map (fun f => f.props.class_no))
  let colorMapping := generateColorMapping classes
  (colorMapping, features.map (renderFeature colorMapping))

end Part001

/-! ### Concrete fixture states -/

/-- A rendered result feature used in the concrete scenarios. -/
def olFeat0 : OlFeature := ⟨GeomType.polygon, ⟨some 1, none⟩, some "#00ff00"⟩

/-- A drawn AOI polygon ring (coordinates are irrelevant to the claims). -/
def g0 : GeoJSON := ⟨[(0, 0), (4, 0), (4, 4), (0, 0)]⟩

/-- A second, different AOI polygon. -/
def g1 : GeoJSON := ⟨[(10, 10), (14, 10), (14, 14), (10, 10)]⟩

/-- The component state right after mount: the initial `useState` values, with
the `[baseLayer]` effect having installed the map. -/
def mountedState : WidgetState :=
  { map := some { base := BaseLayer.google, overlay := [] }
    draw := false
    geoJSONFeatures := []
    drawnGeoJSON := none
    selectedIndex := "NDVI"
    selectedDate := none
    availableDates := []
    cloudCover := 100
    fetchDataRequired := false
    loading := false
    loadingDates := false
    baseLayer := BaseLayer.google
    legendColors := []
    log := [] }

/-! ### Helper lemmas -/

theorem toastCount_append (a b : List Event) :
    toastCount (a ++ b) = toastCount a + toastCount b := by
  simp [toastCount, List.filter_append]

theorem httpPostCount_append (a b : List Event) :
    httpPostCount (a ++ b) = httpPostCount a + httpPostCount b := by
  simp [httpPostCount, List.filter_append]

theorem removeDrawInteraction_map (s : WidgetState) :
    (removeDrawInteraction s).map = s.map := by
  unfold removeDrawInteraction; split <;> rfl

theorem removeDrawInteraction_geoJSONFeatures (s : WidgetState) :
    (removeDrawInteraction s).geoJSONFeatures = s.geoJSONFeatures := by
  unfold removeDrawInteraction; split <;> rfl

theorem removeDrawInteraction_legendColors (s : WidgetState) :
    (removeDrawInteraction s).legendColors = s.legendColors := by
  unfold removeDrawInteraction; split <;> rfl

theorem removeDrawInteraction_availableDates (s : WidgetState) :
    (removeDrawInteraction s).availableDates = s.availableDates := by
  unfold removeDrawInteraction; split <;> rfl

theorem removeDrawInteraction_log (s : WidgetState) :
    (removeDrawInteraction s).log = s.log
    ∨ (removeDrawInteraction s).log = s.log ++ [Event.removeDraw] := by
  unfold removeDrawInteraction; split
  · exact Or.inr rfl
  · exact Or.inl rfl

theorem toastCount_removeDrawInteraction (s : WidgetState) :
    toastCount (removeDrawInteraction s).log = toastCount s.log := by
  rcases removeDrawInteraction_log s with h | h <;> rw [h]
  rw [toastCount_append]; rfl

theorem mem_setDedup_aux {α : Type} [DecidableEq α] (l : List α) (acc : List α) (a : α) :
    (a ∈ l.foldl (fun acc x => if x ∈ acc then acc else acc ++ [x]) acc)
      ↔ (a ∈ acc ∨ a ∈ l) := by
  induction l generalizing acc with
  | nil => simp
  | cons x xs ih =>
    simp only [List.foldl_cons, ih, List.mem_cons]
    by_cases hx : x ∈ acc
    · simp only [if_pos hx]
      constructor
      · rintro (h | h)
        · exact Or.inl h
        · exact Or.inr (Or.inr h)
      · rintro (h | h | h)
        · exact Or.inl h
        · exact Or.inl (by rw [h]; exact hx)
        · exact Or.inr h
    · simp only [if_neg hx, List.mem_append, List.mem_singleton]
      tauto

theorem mem_setDedup {α : Type} [DecidableEq α] (l : List α) (a : α) :
    a ∈ setDedup l ↔ a ∈ l := by
  unfold setDedup
  rw [mem_setDedup_aux]
  simp

theorem setDedup_ne_nil {α : Type} [DecidableEq α] (l : List α) (h : l ≠ []) :
    setDedup l ≠ [] := by
  cases l with
  | nil => exact absurd rfl h
  | cons x xs =>
    intro hcontra
    have hx : x ∈ setDedup (x :: xs) := (mem_setDedup _ _).mpr (List.mem_cons_self x xs)
    rw [hcontra] at hx
    exact List.not_mem_nil x hx

theorem part001_generateColorMapping_key_mem {α : Type} (classes : List α)
    (p : α × String) (hp : p ∈ Part001.generateColorMapping classes) :
    p.1 ∈ classes := by
  unfold Part001.generateColorMapping at hp
  obtain ⟨q, hq, hpq⟩ := List.mem_map.mp hp
  have h2 : q.2 ∈ classes := by
    have := List.mem_enum_iff_getElem?.mp hq
    exact List.getElem?_mem this
  rw [← hpq]
  exact h2

theorem lookupColor_none_of_keys_isSome (mapping : List (Option Int × String))
    (h : ∀ p ∈ mapping, p.1.isSome = true) :
    lookupColor mapping none = none := by
  unfold lookupColor
  rw [List.find?_eq_none.mpr]
  · rfl
  · intro x hx
    have hs := h x hx
    simp only [decide_eq_true_eq]
    intro hnone
    rw [hnone] at hs
    simp at hs

/-! ### Claim theorems -/

/-- Availability result lists for thresholds 10, 50 and 90. -/
def r10 : List String := ["2024-01-10"]

def r50 : List String := ["2024-02-14"]

def r90 : List String := ["2024-03-21"]

/-- C1: the claim states that availability responses are applied in
request-issuance order, so that after issuing thresholds [10, 50, 90] with the
threshold-50 response arriving after the threshold-90 response, the final
`availableDates` reflects threshold 90.  The code has no request sequence
guard: each arriving response unconditionally overwrites `availableDates`, so
the last-arriving response wins.  At this input the final date set is the
threshold-50 result, not the threshold-90 result. -/
theorem C1_last_arrival_wins_not_last_issued :
    (List.foldl availabilityResponseArrives
        (issueAvailabilityRequest (issueAvailabilityRequest
          (issueAvailabilityRequest mountedState)))
        [Except.ok r10, Except.ok r90, Except.ok r50]).availableDates
      = r50.map parseISO
    ∧ r50.map parseISO ≠ r90.map parseISO := by
  constructor
  · rfl
  · decide

/-- A state in which a fetched result batch is rendered on the overlay. -/
def renderedState : WidgetState :=
  { mountedState with
      map := some { base := BaseLayer.google,
                    overlay := [OverlayItem.result (some olFeat0)] }
      geoJSONFeatures := [some olFeat0]
      legendColors := [(some 1, "#00ff00")] }

/-- C4: the claim states that after toggling the base layer the previously
rendered result geometries reappear on the new overlay.  The `[baseLayer]`
effect rebuilds the map with a freshly constructed empty vector source and
never re-adds `geoJSONFeatures` to it: starting from a state whose overlay
holds one rendered result feature, the overlay after the toggle is empty (the
feature batch survives only in the `geoJSONFeatures` state, not on the map). -/
theorem C4_toggle_discards_overlay :
    overlayOf renderedState = some [OverlayItem.result (some olFeat0)]
    ∧ overlayOf (toggleBaseLayerRebuild renderedState) = some []
    ∧ (toggleBaseLayerRebuild renderedState).geoJSONFeatures = [some olFeat0] :=
  ⟨rfl, rfl, rfl⟩

/-- C3 counterexample: the claim's example asserts that for the class-code
list [2, 0, 5] the first class (code 2) receives `palette[2]`.  In the code
the assignment is positional: the first distinct class receives
`colors[0] = "#00ff00"`, which differs from `colors[2] = "#00cc00"`. -/
theorem C3_counterexample :
    lookupColor (generateColorMapping (setDedup [some (2 : Int), some 0, some 5])) (some 2)
        = some "#00ff00"
    ∧ colors.getD 2 "" = "#00cc00"
    ∧ ("#00ff00" : String) ≠ "#00cc00" := by
  refine ⟨by decide, by decide, by decide⟩

/-- C3 (amended): legend assignment iterates the distinct class codes in
first-encountered order and assigns colors cyclically by position — the k-th
distinct class (0-based) receives `palette[k mod palette.length]`; in
particular the class-code list [2, 0, 5] is assigned `palette[0]`,
`palette[1]`, `palette[2]` respectively. -/
theorem C3_positional_cyclic_assignment :
    (∀ (classes : List (Option Int)) (k : Nat),
        (generateColorMapping classes)[k]?
          = (classes[k]?).map (fun c => (c, colors.getD (k % colors.length) "")))
    ∧ generateColorMapping (setDedup [some (2 : Int), some 0, some 5])
        = [(some 2, "#00ff00"), (some 0, "#00e600"), (some 5, "#00cc00")] := by
  constructor
  · intro classes k
    unfold generateColorMapping
    rw [List.getElem?_map, List.getElem?_enum]
    cases classes[k]? <;> rfl
  · decide

/-- A state in the middle of a session: AOI drawn, a date selected from its
availability set. -/
def c10Start : WidgetState :=
  { mountedState with
      drawnGeoJSON := some g0
      selectedDate := some "2024-01-01"
      availableDates := [parseISO "2024-01-01"]
      map := some { base := BaseLayer.google, overlay := [OverlayItem.drawn g0] } }

/-- `c10Start` after Clear Feature, then a new draw session that draws `g1`,
whose availability query returns only "2024-05-05". -/
def c10AfterRedraw : WidgetState :=
  drawEnd (addDrawInteraction (clearDrawnFeatures c10Start)) g1 (Except.ok ["2024-05-05"])

/-- C10: `clearDrawnFeatures` leaves `selectedDate` and `selectedIndex`
untouched in every state; concretely, after clearing and drawing a new
polygon whose availability set is ["2024-05-05"], the stale date "2024-01-01"
is still selected, is not in the new availability set, and pressing Fetch
Data nevertheless issues the HTTP request with it. -/
theorem C10_clear_keeps_selected_date :
    (∀ s : WidgetState,
        (clearDrawnFeatures s).selectedDate = s.selectedDate
        ∧ (clearDrawnFeatures s).selectedIndex = s.selectedIndex)
    ∧ c10AfterRedraw.selectedDate = some "2024-01-01"
    ∧ parseISO "2024-01-01" ∉ c10AfterRedraw.availableDates
    ∧ httpPostCount (pressFetchData c10AfterRedraw (FetchResp.ok ⟨some []⟩)).log
        = httpPostCount c10AfterRedraw.log + 1 := by
  refine ⟨?_, by decide, by decide, by decide⟩
  intro s
  unfold clearDrawnFeatures
  split <;> exact ⟨rfl, rfl⟩

/-- C8: on success an availability refresh replaces `availableDates` entirely
with the parsed response (independent of the previous value); on failure it
leaves `availableDates` unchanged and raises exactly one toast error; and a
cloud-cover change issues an availability request if and only if a drawn
GeoJSON (AreaOfInterest) exists. -/
theorem C8_refresh_replace_fail_untouched_retrigger_iff_aoi :
    (∀ (s : WidgetState) (dates : List String),
        (fetchAvailableDates s (Except.ok dates)).availableDates = dates.map parseISO)
    ∧ (∀ s : WidgetState,
        (fetchAvailableDates s (Except.error ())).availableDates = s.availableDates
        ∧ toastCount (fetchAvailableDates s (Except.error ())).log
            = toastCount s.log + 1)
    ∧ (∀ (s : WidgetState) (v : Int) (resp : Except Unit (List String)),
        httpPostCount (changeCloudCover s v resp).log
          = httpPostCount s.log + (if s.drawnGeoJSON.isSome then 1 else 0)) := by
  refine ⟨fun s dates => rfl, fun s => ⟨rfl, ?_⟩, fun s v resp => ?_⟩
  · show toastCount ((s.log ++ [Event.httpPost]) ++ [Event.toastError])
        = toastCount s.log + 1
    rw [toastCount_append, toastCount_append]
    rfl
  · unfold changeCloudCover runCloudCoverEffect handleCloudCoverChange
    by_cases h : s.drawnGeoJSON.isSome
    · rw [if_pos h, if_pos h]
      cases resp with
      | ok dates =>
          show httpPostCount ((s.log ++ [Event.httpPost]) ++ [Event.setDates])
              = httpPostCount s.log + 1
          rw [httpPostCount_append, httpPostCount_append]
          rfl
      | error e =>
          show httpPostCount ((s.log ++ [Event.httpPost]) ++ [Event.toastError])
              = httpPostCount s.log + 1
          rw [httpPostCount_append, httpPostCount_append]
          rfl
    · rw [if_neg h, if_neg h]
      rfl

/-- A state with an earlier result batch rendered and all fetch inputs set. -/
def sPrior : WidgetState :=
  { mountedState with
      map := some { base := BaseLayer.google,
                    overlay := [OverlayItem.result (some olFeat0)] }
      geoJSONFeatures := [some olFeat0]
      selectedDate := some "2024-01-01"
      drawnGeoJSON := some g0 }

/-- The single feature of the new fetch response in the C2 scenario. -/
def newFeat : SrcFeature := ⟨GeomType.polygon, ⟨some 3, none⟩⟩

/-- C2 counterexample: the claim states that after a successful fetch the
overlay contains exactly the new batch.  Starting from a state whose overlay
already holds one result feature, `fetchGeoJSONData` calls `addFeatures`
without clearing the source, so the overlay is not equal to the new batch
(the prior feature is still there in front of it). -/
theorem C2_counterexample :
    overlayOf (fetchGeoJSONData sPrior (FetchResp.ok ⟨some [newFeat]⟩))
      ≠ some ((fetchGeoJSONData sPrior
            (FetchResp.ok ⟨some [newFeat]⟩)).geoJSONFeatures.map OverlayItem.result) := by
  decide

/-- C2 (amended): on a successful fetch the new batch replaces the
`geoJSONFeatures` state, but on the overlay source it is *appended* after the
prior geometries (`addFeatures` with no preceding `clear`): the overlay
afterwards is the prior overlay followed by the new batch. -/
theorem C2_batch_replaces_state_but_appends_overlay
    (s : WidgetState) (m : MapSurface) (features : List SrcFeature)
    (hm : s.map = some m) (hin : fetchInputsPresent s = true) :
    (fetchGeoJSONData s (FetchResp.ok ⟨some features⟩)).geoJSONFeatures
        = features.map (renderFeature (generateColorMapping
            (setDedup (features.map (fun f => f.props.class_no)))))
    ∧ overlayOf (fetchGeoJSONData s (FetchResp.ok ⟨some features⟩))
        = some (m.overlay
            ++ (features.map (renderFeature (generateColorMapping
                (setDedup (features.map (fun f => f.props.class_no)))))).map
              OverlayItem.result) := by
  simp only [fetchGeoJSONData, hin, if_true]
  rw [removeDrawInteraction_map]
  simp only [removeDrawInteraction_geoJSONFeatures, removeDrawInteraction_legendColors]
  rw [hm]
  simp only [overlayOf, addResultFeatures]
  exact ⟨by trivial, by trivial⟩

/-- Witness for the C2 amended theorem at the concrete state `sPrior` with the
one-feature response `[newFeat]`. -/
theorem C2_batch_replaces_state_but_appends_overlay_witness :
    sPrior.map = some { base := BaseLayer.google,
                        overlay := [OverlayItem.result (some olFeat0)] }
    ∧ fetchInputsPresent sPrior = true
    ∧ ((fetchGeoJSONData sPrior (FetchResp.ok ⟨some [newFeat]⟩)).geoJSONFeatures
          = [newFeat].map (renderFeature (generateColorMapping
              (setDedup ([newFeat].map (fun f => f.props.class_no)))))
        ∧ overlayOf (fetchGeoJSONData sPrior (FetchResp.ok ⟨some [newFeat]⟩))
          = some ([OverlayItem.result (some olFeat0)]
              ++ ([newFeat].map (renderFeature (generateColorMapping
                  (setDedup ([newFeat].map (fun f => f.props.class_no)))))).map
                OverlayItem.result)) :=
  ⟨rfl, rfl,
    C2_batch_replaces_state_but_appends_overlay sPrior
      { base := BaseLayer.google, overlay := [OverlayItem.result (some olFeat0)] }
      [newFeat] rfl rfl⟩

/-- C5: whenever the map exists (as it does in every state after mount),
`clearDrawnFeatures` empties the overlay source and resets the drawn GeoJSON,
the available dates, the rendered feature batch, the legend mapping and the
fetch-required flag, and a new draw session can start immediately afterwards
(`addDrawInteraction` succeeds on the cleared state). -/
theorem C5_clear_resets_all_state (s : WidgetState) (m : MapSurface)
    (hm : s.map = some m) :
    overlayOf (clearDrawnFeatures s) = some []
    ∧ (clearDrawnFeatures s).drawnGeoJSON = none
    ∧ (clearDrawnFeatures s).availableDates = []
    ∧ (clearDrawnFeatures s).geoJSONFeatures = []
    ∧ (clearDrawnFeatures s).legendColors = []
    ∧ (clearDrawnFeatures s).fetchDataRequired = false
    ∧ (addDrawInteraction (clearDrawnFeatures s)).draw = true := by
  have hs : s.map.isSome = true := by rw [hm]; rfl
  simp only [clearDrawnFeatures, hs, if_true, overlayOf, clearOverlay, hm,
    addDrawInteraction, Option.isSome_some]
  refine ⟨?_, ?_, ?_, ?_, ?_, ?_, ?_⟩ <;> trivial

/-- Witness for C5 at the concrete state `c10Start`. -/
theorem C5_clear_resets_all_state_witness :
    c10Start.map = some { base := BaseLayer.google, overlay := [OverlayItem.drawn g0] }
    ∧ (overlayOf (clearDrawnFeatures c10Start) = some []
        ∧ (clearDrawnFeatures c10Start).drawnGeoJSON = none
        ∧ (clearDrawnFeatures c10Start).availableDates = []
        ∧ (clearDrawnFeatures c10Start).geoJSONFeatures = []
        ∧ (clearDrawnFeatures c10Start).legendColors = []
        ∧ (clearDrawnFeatures c10Start).fetchDataRequired = false
        ∧ (addDrawInteraction (clearDrawnFeatures c10Start)).draw = true) :=
  ⟨rfl, C5_clear_resets_all_state c10Start
    { base := BaseLayer.google, overlay := [OverlayItem.drawn g0] } rfl⟩

/-- C6: when all inputs are present (so the request is actually issued) and
the fetch fails — the request throws (network error / non-success status) or
the payload has no `features` — the legend, the rendered batch and the overlay
are left exactly as they were, exactly one toast error is raised, and the
loading flag ends cleared. -/
theorem C6_failed_fetch_leaves_render_state (s : WidgetState) (resp : FetchResp)
    (hin : fetchInputsPresent s = true)
    (hfail : resp = FetchResp.netError ∨ resp = FetchResp.ok ⟨none⟩) :
    (fetchGeoJSONData s resp).legendColors = s.legendColors
    ∧ (fetchGeoJSONData s resp).geoJSONFeatures = s.geoJSONFeatures
    ∧ overlayOf (fetchGeoJSONData s resp) = overlayOf s
    ∧ toastCount (fetchGeoJSONData s resp).log = toastCount s.log + 1
    ∧ (fetchGeoJSONData s resp).loading = false := by
  rcases hfail with rfl | rfl <;>
  · simp only [fetchGeoJSONData, hin, if_true]
    refine ⟨?_, ?_, ?_, ?_, ?_⟩
    · rw [removeDrawInteraction_legendColors]
    · rw [removeDrawInteraction_geoJSONFeatures]
    · simp only [overlayOf]
      rw [removeDrawInteraction_map]
    · dsimp only
      rw [toastCount_append, toastCount_append, toastCount_removeDrawInteraction]
      rfl
    · trivial

/-- Witness for C6 at the concrete state `sPrior` with a network error. -/
theorem C6_failed_fetch_leaves_render_state_witness :
    fetchInputsPresent sPrior = true
    ∧ (FetchResp.netError = FetchResp.netError
        ∨ FetchResp.netError = FetchResp.ok ⟨none⟩)
    ∧ ((fetchGeoJSONData sPrior FetchResp.netError).legendColors = sPrior.legendColors
        ∧ (fetchGeoJSONData sPrior FetchResp.netError).geoJSONFeatures
            = sPrior.geoJSONFeatures
        ∧ overlayOf (fetchGeoJSONData sPrior FetchResp.netError) = overlayOf sPrior
        ∧ toastCount (fetchGeoJSONData sPrior FetchResp.netError).log
            = toastCount sPrior.log + 1
        ∧ (fetchGeoJSONData sPrior FetchResp.netError).loading = false) :=
  ⟨rfl, Or.inl rfl,
    C6_failed_fetch_leaves_render_state sPrior FetchResp.netError rfl (Or.inl rfl)⟩

theorem removeDrawInteraction_active (s : WidgetState)
    (h1 : s.map.isSome = true) (h2 : s.draw = true) :
    removeDrawInteraction s
      = { s with draw := false, log := s.log ++ [Event.removeDraw] } := by
  unfold removeDrawInteraction
  rw [h1, h2]
  rfl

theorem handleFetchData_present (s : WidgetState) (hin : fetchInputsPresent s = true) :
    handleFetchData s = { s with fetchDataRequired := true } := by
  unfold handleFetchData
  rw [if_pos hin]

theorem fetchGeoJSONData_stops_draw_then_posts (u : WidgetState) (resp : FetchResp)
    (hin : fetchInputsPresent u = true) (hmapu : u.map.isSome = true)
    (hdrawu : u.draw = true) :
    (fetchGeoJSONData u resp).draw = false
    ∧ ∃ rest, (fetchGeoJSONData u resp).log
        = u.log ++ [Event.removeDraw, Event.httpPost] ++ rest := by
  obtain ⟨mm, hmm⟩ := Option.isSome_iff_exists.mp hmapu
  simp only [fetchGeoJSONData, hin, if_true]
  rw [removeDrawInteraction_active { u with loading := true } hmapu hdrawu]
  cases resp with
  | netError =>
      dsimp only
      refine ⟨rfl, [Event.toastError], by simp⟩
  | ok data =>
      cases data with
      | mk fs =>
          cases fs with
          | none =>
              dsimp only
              refine ⟨rfl, [Event.toastError], by simp⟩
          | some features =>
              dsimp only
              rw [hmm]
              dsimp only
              refine ⟨rfl, [], by simp⟩

/-- C7: when any of index, date or drawn GeoJSON is missing, pressing Fetch
Data only raises the validation toast — the state is otherwise unchanged and
no HTTP request is issued; when all three are present (in a quiescent state
with the map up and a draw session active), the fetch stops the draw session
*before* issuing the request: the draw interaction ends detached and the event
log gains `removeDraw` followed by `httpPost`. -/
theorem C7_fetch_validates_and_stops_draw (s t : WidgetState) (resp resp2 : FetchResp)
    (hmiss : fetchInputsPresent s = false)
    (hpres : fetchInputsPresent t = true)
    (hreq : t.fetchDataRequired = false)
    (hmap : t.map.isSome = true)
    (hdraw : t.draw = true) :
    pressFetchData s resp = { s with log := s.log ++ [Event.toastError] }
    ∧ httpPostCount (pressFetchData s resp).log = httpPostCount s.log
    ∧ (pressFetchData t resp2).draw = false
    ∧ ∃ rest, (pressFetchData t resp2).log
        = t.log ++ [Event.removeDraw, Event.httpPost] ++ rest := by
  have hmissEq : pressFetchData s resp = { s with log := s.log ++ [Event.toastError] } := by
    simp only [pressFetchData, handleFetchData, hmiss, Bool.false_eq_true, if_false,
      Bool.and_not_self, Bool.false_and, Bool.and_self]
  have hu : pressFetchData t resp2
      = fetchGeoJSONData { t with fetchDataRequired := true } resp2 := by
    unfold pressFetchData
    rw [handleFetchData_present t hpres]
    simp only [hreq, hmap, Bool.not_false, Bool.and_true, Bool.true_and, if_true]
  have h34 := fetchGeoJSONData_stops_draw_then_posts
    { t with fetchDataRequired := true } resp2 hpres hmap hdraw
  refine ⟨hmissEq, ?_, ?_, ?_⟩
  · rw [hmissEq]
    dsimp only
    rw [httpPostCount_append]
    rfl
  · rw [hu]
    exact h34.1
  · rw [hu]
    obtain ⟨rest, hr⟩ := h34.2
    exact ⟨rest, hr⟩

/-- `c10Start` with an active draw session: all fetch inputs present. -/
def c7Ready : WidgetState := { c10Start with draw := true }

/-- Witness for C7: `mountedState` has no date selected (validation failure);
`c7Ready` has all inputs present with an active draw session. -/
theorem C7_fetch_validates_and_stops_draw_witness :
    fetchInputsPresent mountedState = false
    ∧ fetchInputsPresent c7Ready = true
    ∧ c7Ready.fetchDataRequired = false
    ∧ c7Ready.map.isSome = true
    ∧ c7Ready.draw = true
    ∧ (pressFetchData mountedState FetchResp.netError
          = { mountedState with log := mountedState.log ++ [Event.toastError] }
        ∧ httpPostCount (pressFetchData mountedState FetchResp.netError).log
            = httpPostCount mountedState.log
        ∧ (pressFetchData c7Ready FetchResp.netError).draw = false
        ∧ ∃ rest, (pressFetchData c7Ready FetchResp.netError).log
            = c7Ready.log ++ [Event.removeDraw, Event.httpPost] ++ rest) :=
  ⟨rfl, rfl, rfl, rfl, rfl,
    C7_fetch_validates_and_stops_draw mountedState c7Ready
      FetchResp.netError FetchResp.netError rfl rfl rfl rfl rfl⟩

/-- C9: in the part_001 revision the legend mapping is keyed by the features'
`class_no` values, but each rendered feature's fill color is looked up as
`colorMapping[feature.properties.class]`; for every non-empty response whose
features carry a `class_no` property but no `class` property, the legend
mapping is non-empty while every rendered feature's fill color is undefined. -/
theorem C9_part001_fill_lookup_misses_legend_keys (features : List SrcFeature)
    (hne : features ≠ [])
    (hcn : ∀ f ∈ features, (f.props.class_no).isSome = true)
    (hcp : ∀ f ∈ features, f.props.«class» = none) :
    (Part001.processResponse features).1 ≠ []
    ∧ ((Part001.processResponse features).2.all
        (fun olf => olf.fillColor.isNone)) = true := by
  constructor
  · unfold Part001.processResponse
    dsimp only
    intro hcontra
    have hlen : setDedup (features.map (fun f => f.props.class_no)) ≠ [] :=
      setDedup_ne_nil _ (by
        intro h
        exact hne (List.map_eq_nil_iff.mp h))
    apply hlen
    have hc2 := congrArg List.length hcontra
    simp [Part001.generateColorMapping, List.enum_length] at hc2
    exact hc2
  · rw [List.all_eq_true]
    intro olf holf
    unfold Part001.processResponse at holf
    dsimp only at holf
    obtain ⟨f, hf, rfl⟩ := List.mem_map.mp holf
    unfold Part001.renderFeature
    dsimp only
    rw [hcp f hf]
    rw [lookupColor_none_of_keys_isSome]
    · rfl
    · intro p hp
      have hk := part001_generateColorMapping_key_mem _ p hp
      have hk2 := (mem_setDedup _ _).mp hk
      obtain ⟨f2, hf2, hfk⟩ := List.mem_map.mp hk2
      rw [← hfk]
      exact hcn f2 hf2

/-- The one-feature response of the C9 witness: `class_no` present, `class`
absent. -/
def c9Features : List SrcFeature := [⟨GeomType.polygon, ⟨some 1, none⟩⟩]

/-- Witness for C9 at the concrete one-feature response `c9Features`. -/
theorem C9_part001_fill_lookup_misses_legend_keys_witness :
    (Part001.processResponse c9Features).1 ≠ []
    ∧ ((Part001.processResponse c9Features).2.all
        (fun olf => olf.fillColor.isNone)) = true :=
  C9_part001_fill_lookup_misses_legend_keys c9Features
    (by decide) (by decide) (by decide)
